import Mathlib

/-!
Shallow embedding of the availability / booking-lifecycle logic of the
pine-blue hotel backend (Python/FastAPI over a Supabase row store).

Dates are modelled as integer day numbers; clock time, where needed, as
integer minutes since an arbitrary UTC epoch.  Monetary amounts and
percentages are modelled as rationals.  Each Supabase query is modelled as
a pure filter over an in-memory table; a fetch that can fail (the Python
code wraps every route body in try/except) is modelled by an explicit
fault flag that turns the fetch result into `none`, and route functions
map `none` to the fail-closed value the except-branch returns.
-/

namespace PineBlue

/-- Row of the `rooms` table (fields selected by the routes). -/
structure RoomRow where
  roomNumber : String
  roomType : String
  roomTypeId : Int
  status : String
  deriving DecidableEq, Repr

/-- Row of the `bookings` table (fields used by the modelled routes). -/
structure BookingRow where
  bookingId : String
  roomNumber : String
  roomType : String
  checkIn : Int
  checkOut : Int
  guests : Int
  status : String
  isCancelled : Bool
  createdAt : Int
  deriving DecidableEq, Repr

/-- Row of the `room_types` table. -/
structure RoomTypeRow where
  id : Int
  name : String
  basePrice : ℚ
  maxAdults : Option Int
  maxChildren : Option Int
  deriving DecidableEq, Repr

/-- Row of the `billing` table. -/
structure BillingRow where
  bookingId : String
  roomPrice : ℚ
  discount : ℚ
  vat : ℚ
  totalAmount : ℚ
  paymentMethod : String
  paymentStatus : String
  isCancelled : Bool
  deriving DecidableEq, Repr

/-- The database state: the four tables the modelled routes touch. -/
structure DB where
  rooms : List RoomRow
  roomTypes : List RoomTypeRow
  bookings : List BookingRow
  billing : List BillingRow
  deriving Repr

/-- Fault-injection flags for the store fetches of one route invocation:
`true` means that fetch raises, which the Python try/except converts into
the route's fail-closed result. -/
structure Faults where
  roomsQ : Bool
  roomTypesQ : Bool
  bookingsQ : Bool
  billingQ : Bool
  deriving DecidableEq, Repr

/-- All fetches succeed. -/
def Faults.ok : Faults := ⟨false, false, false, false⟩

/-- A fetch result: `none` models the raised exception. -/
def fetch (fail : Bool) (rows : List α) : Option (List α) :=
  if fail then none else some rows

/-- Python truthiness `x or d` on an int: `0` is falsy. -/
def pyOrInt (x d : Int) : Int := if x = 0 then d else x

/-- Python truthiness `s or d` on a string: `""` (modelling null/empty) is
falsy. -/
def pyOrStr (s d : String) : String := if s = "" then d else s

/-- Python `dict.get(k) or d` on an optional int: `None` and `0` are falsy. -/
def pyGetOr (x : Option Int) (d : Int) : Int :=
  match x with
  | none => d
  | some v => if v = 0 then d else v

/-!
## Timezone utilities (availability_routes.py / billing.py)

`utc_to_pkt` adds 5 hours to a UTC timestamp; `get_pkt_today` takes the
date of the shifted timestamp.  A timestamp is minutes since epoch and a
date is the floor of minutes / 1440.
-/

/-- `utc_to_pkt`: shift a UTC timestamp (minutes) by +5 hours. -/
def utc_to_pkt (utcMinutes : Int) : Int := utcMinutes + 5 * 60

/-- `get_pkt_today`: current date (day number) in PKT = UTC+5. -/
def get_pkt_today (utcNowMinutes : Int) : Int :=
  (utc_to_pkt utcNowMinutes).fdiv (24 * 60)

/-!
## Interval overlap checker

Source: `bookings.py` line 44 and `availability_routes.py` line 65, both
`check_in < booking_check_out and check_out > booking_check_in`.
-/

/-- The date-range overlap test used by every availability check. -/
def overlaps (targetStart targetEnd existingStart existingEnd : Int) : Bool :=
  decide (targetStart < existingEnd) && decide (targetEnd > existingStart)

/-!
## Query filters (the Supabase predicates, applied to in-memory tables)
-/

/-- `rooms.select(status).eq(room_number, rn)` -/
def roomsByNumber (rooms : List RoomRow) (rn : String) : List RoomRow :=
  rooms.filter (fun r => r.roomNumber = rn)

/-- `bookings.select(...).eq(room_number, rn).eq(is_cancelled, False)` -/
def activeBookingsForRoom (bookings : List BookingRow) (rn : String) :
    List BookingRow :=
  bookings.filter (fun b => b.roomNumber = rn ∧ b.isCancelled = false)

/-- `bookings.select(...).eq(room_number, rn).neq(status, "Maintenance")` —
note: this is the *bookings* status column, as in `bookings.py` line 28. -/
def bookingsForRoomNeqMaint (bookings : List BookingRow) (rn : String) :
    List BookingRow :=
  bookings.filter (fun b => b.roomNumber = rn ∧ b.status ≠ "Maintenance")

/-- `room_types.select(...).eq(id, tid)` -/
def roomTypesById (roomTypes : List RoomTypeRow) (tid : Int) :
    List RoomTypeRow :=
  roomTypes.filter (fun t => t.id = tid)

/-- `room_types.select(...).eq(name, n)` -/
def roomTypesByName (roomTypes : List RoomTypeRow) (n : String) :
    List RoomTypeRow :=
  roomTypes.filter (fun t => t.name = n)

/-- `rooms.select(...).eq(room_type_id, tid)` (no status filter) —
`bookings.py` lines 85–88. -/
def roomsByTypeId (rooms : List RoomRow) (tid : Int) : List RoomRow :=
  rooms.filter (fun r => r.roomTypeId = tid)

/-- `rooms.select(...).eq(room_type_id, tid).neq(status, "Maintenance")` —
`availability_routes.py` lines 98–104. -/
def roomsByTypeIdNoMaint (rooms : List RoomRow) (tid : Int) : List RoomRow :=
  rooms.filter (fun r => r.roomTypeId = tid ∧ r.status ≠ "Maintenance")

/-- `bookings.select(...).eq(booking_id, id)` -/
def bookingsById (bookings : List BookingRow) (bid : String) :
    List BookingRow :=
  bookings.filter (fun b => b.bookingId = bid)

/-- `billing.select(...).eq(booking_id, id)` -/
def billingById (billing : List BillingRow) (bid : String) :
    List BillingRow :=
  billing.filter (fun b => b.bookingId = bid)

/-!
## Single-room availability (availability_routes.py `check_room_availability`)

The loop body (lines 61–71): for each non-cancelled booking of the room,
return False on a date-range overlap, and return False when PKT-today lies
inside the booking's half-open range; True when the scan finishes.
-/

/-- Booking scan of availability_routes `check_room_availability`. -/
def availScan (pktToday checkIn checkOut : Int) :
    List BookingRow → Bool
  | [] => true
  | b :: rest =>
    if overlaps checkIn checkOut b.checkIn b.checkOut then false
    else if pktToday ≥ b.checkIn ∧ pktToday < b.checkOut then false
    else availScan pktToday checkIn checkOut rest

/-- availability_routes `check_room_availability`, with fetch results
already obtained (`none` = fetch raised). -/
def availCheckCore (roomResult : Option (List RoomRow))
    (bookingsResult : Option (List BookingRow))
    (pktToday checkIn checkOut : Int) : Bool :=
  match roomResult with
  | none => false
  | some [] => false
  | some (room :: _) =>
    if room.status = "Maintenance" then false
    else
      match bookingsResult with
      | none => false
      | some bs => availScan pktToday checkIn checkOut bs

/-- availability_routes `check_room_availability` against a database state,
with fault injection.  `utcNow` is the wall clock read by `get_pkt_today`. -/
def availCheckRoomAvailability (db : DB) (f : Faults) (rn : String)
    (utcNow checkIn checkOut : Int) : Bool :=
  availCheckCore
    (fetch f.roomsQ (roomsByNumber db.rooms rn))
    (fetch f.bookingsQ (activeBookingsForRoom db.bookings rn))
    (get_pkt_today utcNow) checkIn checkOut

/-!
## Single-room availability (bookings.py `check_room_availability`)

Fetches bookings for the room with `.neq(status, "Maintenance")` (a filter
on the *booking* status column, not the room's), never reads the room's
own status, and returns False exactly when some fetched booking's range
overlaps the target (lines 32–47); False when the fetch raises.
-/

/-- Overlap-only scan of bookings.py `check_room_availability`. -/
def bkScan (checkIn checkOut : Int) : List BookingRow → Bool
  | [] => true
  | b :: rest =>
    if overlaps checkIn checkOut b.checkIn b.checkOut then false
    else bkScan checkIn checkOut rest

/-- bookings.py `check_room_availability` with the fetch result given. -/
def bkCheckCore (bookingsResult : Option (List BookingRow))
    (checkIn checkOut : Int) : Bool :=
  match bookingsResult with
  | none => false
  | some bs => bkScan checkIn checkOut bs

/-- bookings.py `check_room_availability` against a database state. -/
def bkCheckRoomAvailability (db : DB) (f : Faults) (rn : String)
    (checkIn checkOut : Int) : Bool :=
  bkCheckCore (fetch f.bookingsQ (bookingsForRoomNeqMaint db.bookings rn))
    checkIn checkOut

/-!
## Room-set availability (availability_routes.py `get_available_rooms_optimized`)

Fetch the room type name by id; fetch the type's rooms excluding
`Maintenance`; fetch, pre-filtered server side, the non-cancelled bookings
of those rooms whose range intersects the target inclusively; mark a room
occupied when a fetched booking overlaps the target or contains PKT-today;
return the remaining rooms in inventory order (lines 83–147).
-/

/-- Server-side booking pre-filter of `get_available_rooms_optimized`:
`.in_(room_number, rns).eq(is_cancelled, False)
 .gte(check_out, check_in).lte(check_in, check_out)`. -/
def bookingsPrefilter (bookings : List BookingRow) (rns : List String)
    (checkIn checkOut : Int) : List BookingRow :=
  bookings.filter (fun b =>
    b.roomNumber ∈ rns ∧ b.isCancelled = false ∧
    b.checkOut ≥ checkIn ∧ b.checkIn ≤ checkOut)

/-- Client-side occupancy test of `get_available_rooms_optimized`
(lines 123–130): overlap, or else PKT-today inside the booking range. -/
def occupiedBy (pktToday checkIn checkOut : Int) (b : BookingRow) : Bool :=
  if overlaps checkIn checkOut b.checkIn b.checkOut then true
  else if pktToday ≥ b.checkIn ∧ pktToday < b.checkOut then true
  else false

/-- `get_available_rooms_optimized` with the three fetch results given. -/
def availRoomsCore (roomTypeResult : Option (List RoomTypeRow))
    (roomsResult : Option (List RoomRow))
    (bookingsOf : List String → Option (List BookingRow))
    (pktToday checkIn checkOut : Int) : List RoomRow :=
  match roomTypeResult with
  | none => []
  | some [] => []
  | some (rt :: _) =>
    match roomsResult with
    | none => []
    | some [] => []
    | some rooms =>
      match bookingsOf (rooms.map (fun r => r.roomNumber)) with
      | none => []
      | some bs =>
        let occupied := (bs.filter (occupiedBy pktToday checkIn checkOut)).map
          (fun b => b.roomNumber)
        ((rooms.filter (fun r => r.roomNumber ∉ occupied)).map
          (fun r => { r with roomType := pyOrStr r.roomType rt.name }))

/-- availability_routes `get_available_rooms_optimized` against a database
state, with fault injection. -/
def get_available_rooms_optimized (db : DB) (f : Faults) (tid : Int)
    (utcNow checkIn checkOut : Int) : List RoomRow :=
  availRoomsCore
    (fetch f.roomTypesQ (roomTypesById db.roomTypes tid))
    (fetch f.roomsQ (roomsByTypeIdNoMaint db.rooms tid))
    (fun rns => fetch f.bookingsQ (bookingsPrefilter db.bookings rns checkIn checkOut))
    (get_pkt_today utcNow) checkIn checkOut

/-!
## Room-set availability (bookings.py `get_available_rooms_for_type_id`)

Fetch the room type name by id; fetch **all** rooms of the type — no
status filter (lines 85–88); keep each room for which the bookings.py
`check_room_availability` scan passes.  The room's own status is never
consulted anywhere on this path.
-/

/-- bookings.py `get_available_rooms_for_type_id` against a database state. -/
def get_available_rooms_for_type_id (db : DB) (f : Faults) (tid : Int)
    (checkIn checkOut : Int) : List RoomRow :=
  match fetch f.roomTypesQ (roomTypesById db.roomTypes tid) with
  | none => []
  | some [] => []
  | some (rt :: _) =>
    match fetch f.roomsQ (roomsByTypeId db.rooms tid) with
    | none => []
    | some rooms =>
      ((rooms.filter (fun r =>
        bkCheckRoomAvailability db f r.roomNumber checkIn checkOut)).map
          (fun r => { r with roomType := pyOrStr r.roomType rt.name }))

/-!
## Billing calculator

`billing.py` lines 142–150 (`create_billing_for_booking`):
  nights = (check_out - check_in).days or 1
  base = price * nights; discount = base * d/100;
  vat = (base - discount) * v/100; total = base - discount + vat.
`bookings.py` lines 806–815 (`create_billing_record`):
  nights = max(1, (check_out - check_in).days), then the same amounts with
  total = (base - discount) + vat.
-/

/-- Nights as computed in `create_billing_for_booking` (billing.py 145). -/
def billingNights (checkIn checkOut : Int) : Int :=
  pyOrInt (checkOut - checkIn) 1

/-- Nights as computed in `create_billing_record` (bookings.py 808). -/
def recordNights (checkIn checkOut : Int) : Int :=
  max 1 (checkOut - checkIn)

/-- Amount pipeline shared by both billing writers (given nights). -/
def billingAmounts (price : ℚ) (nights : Int) (discountRate vatRate : ℚ) : ℚ :=
  let baseAmount := price * (nights : ℚ)
  let discountAmount := baseAmount * (discountRate / 100)
  let vatAmount := (baseAmount - discountAmount) * (vatRate / 100)
  baseAmount - discountAmount + vatAmount

/-- Total of `create_billing_for_booking` (billing.py 142–150). -/
def billingTotal (price : ℚ) (checkIn checkOut : Int)
    (discountRate vatRate : ℚ) : ℚ :=
  billingAmounts price (billingNights checkIn checkOut) discountRate vatRate

/-- Total of `create_billing_record` (bookings.py 806–815). -/
def recordTotal (price : ℚ) (checkIn checkOut : Int)
    (discountRate vatRate : ℚ) : ℚ :=
  billingAmounts price (recordNights checkIn checkOut) discountRate vatRate

/-- `computeTotal` written exactly from the spec's words (§4.5), for
comparison with the code-derived totals: `base = rate × nights`;
`discount = base × discountPct/100`; `vat = (base - discount) × vatPct/100`;
`total = base - discount + vat`; nights = `max(1, checkout - checkin)`. -/
def specComputeTotal (rate : ℚ) (checkIn checkOut : Int)
    (discountPct vatPct : ℚ) : ℚ :=
  let nights : ℚ := (max 1 (checkOut - checkIn) : Int)
  let base := rate * nights
  let discount := base * (discountPct / 100)
  let vat := (base - discount) * (vatPct / 100)
  base - discount + vat

/-!
## Guest capacity helper (bookings.py `check_guest_capacity_by_name`)

Defined at lines 53–71 but never called by any booking-creation route.
-/

/-- bookings.py `check_guest_capacity_by_name` with the fetch result given. -/
def check_guest_capacity_by_name (roomTypesResult : Option (List RoomTypeRow))
    (guests : Int) : Bool :=
  match roomTypesResult with
  | none => false
  | some [] => false
  | some (rt :: _) =>
    let maxAdults := pyGetOr rt.maxAdults 2
    let maxChildren := pyGetOr rt.maxChildren 1
    decide (guests ≤ maxAdults + maxChildren)

/-!
## Customer booking creation (bookings.py `create_booking`, lines 332–430)

The route validates nothing about guest count, allocates the first room
returned by `get_available_rooms_for_type_id`, generates a sequential
booking id, compares the client total against nights × base price, and
inserts a booking row whose column set is fixed in the source.
-/

/-- A value of a row dict sent to the store. -/
inductive PyVal where
  | str (s : String)
  | int (n : Int)
  | rat (q : ℚ)
  | bool (b : Bool)
  deriving DecidableEq, Repr

/-- The customer booking request, after pydantic validation
(`models/booking.py` `FrontendBookingRequest`). -/
structure FrontendBookingRequest where
  roomTypeId : Int
  userId : Int
  guestName : String
  guestEmail : String
  guestPhone : String
  checkIn : Int
  checkOut : Int
  totalAmount : ℚ
  specialRequests : String
  status : String
  guests : Int
  deriving DecidableEq, Repr

/-- `generate_booking_id`: "BK" + zero-padded successor (bookings.py 14). -/
def generate_booking_id (lastId : Nat) : String :=
  let s := toString (lastId + 1)
  let pad := String.mk (List.replicate (3 - min 3 s.length) '0')
  "BK" ++ pad ++ s

/-- Numeric suffix of the most recently inserted booking id
(`order(id, desc).limit(1)`, then `int(booking_id[2:])`). -/
def lastBookingIdSuffix (bookings : List BookingRow) : Nat :=
  match bookings.getLast? with
  | none => 0
  | some b => (b.bookingId.drop 2).toNat?.getD 0

/-- `int(guest_phone)` if all digits and nonempty, else 0 (bookings.py 396). -/
def pyPhone (s : String) : Int :=
  if s ≠ "" ∧ s.all Char.isDigit then ((s.toNat?.getD 0 : Nat) : Int) else 0

/-- `guest_name.split(" ", 1)[0]` -/
def firstNameOf (guestName : String) : String :=
  (guestName.splitOn " ").headD ""

/-- `guest_name.split(" ", 1)[1]` when a space exists, else `""`. -/
def lastNameOf (guestName : String) : String :=
  String.intercalate " " (guestName.splitOn " ").tail

/-- Result of the customer `create_booking` route. -/
inductive CreateBookingResult where
  | err (statusCode : Int) (detail : String)
  | ok (bookingId : String) (roomNumber : String) (totalAmount : ℚ)
  deriving DecidableEq, Repr

/-- Outcome of `create_booking`: the HTTP result, the row dict passed to
`bookings.insert` (when reached), and the database afterwards. -/
structure CreateBookingOutcome where
  result : CreateBookingResult
  insertedRecord : Option (List (String × PyVal))
  db : DB
  deriving Repr

/-- The row dict of `bookings.insert` in `create_booking`
(bookings.py 386–403), key for key. -/
def bookingInsertData (req : FrontendBookingRequest) (bookingId roomNumber
    actualRoomType : String) (utcNow : Int) : List (String × PyVal) :=
  [("booking_id", .str bookingId),
   ("check_in", .int req.checkIn),
   ("check_out", .int req.checkOut),
   ("guests", .int (pyOrInt req.guests 2)),
   ("room_number", .str roomNumber),
   ("room_type", .str actualRoomType),
   ("first_name", .str (firstNameOf req.guestName)),
   ("last_name", .str (lastNameOf req.guestName)),
   ("email", .str req.guestEmail),
   ("phone", .int (pyPhone req.guestPhone)),
   ("status", .str (pyOrStr req.status "pending")),
   ("source", .str "Direct"),
   ("user_id", .int req.userId),
   ("special_requests", .str req.specialRequests),
   ("is_updated", .bool false),
   ("created_at", .int utcNow)]

/-- The booking row the store ends up holding for that dict (columns the
model tracks; `is_cancelled` takes the store default `false`). -/
def bookingRowOfInsert (req : FrontendBookingRequest) (bookingId roomNumber
    actualRoomType : String) (utcNow : Int) : BookingRow :=
  { bookingId := bookingId
    roomNumber := roomNumber
    roomType := actualRoomType
    checkIn := req.checkIn
    checkOut := req.checkOut
    guests := pyOrInt req.guests 2
    status := pyOrStr req.status "pending"
    isCancelled := false
    createdAt := utcNow }

/-- Customer `create_booking` (bookings.py 332–430), fetches succeeding. -/
def create_booking (db : DB) (req : FrontendBookingRequest) (utcNow : Int) :
    CreateBookingOutcome :=
  match roomTypesById db.roomTypes req.roomTypeId with
  | [] => ⟨.err 404 "Room type not found", none, db⟩
  | rt :: _ =>
    match get_available_rooms_for_type_id db Faults.ok req.roomTypeId
        req.checkIn req.checkOut with
    | [] => ⟨.err 400 "No rooms available", none, db⟩
    | selected :: _ =>
      let availableRoom := selected.roomNumber
      let actualRoomType := pyOrStr selected.roomType rt.name
      let bookingId := generate_booking_id (lastBookingIdSuffix db.bookings)
      let nights := pyOrInt (req.checkOut - req.checkIn) 1
      let calculatedTotal := (nights : ℚ) * rt.basePrice
      let totalAmount :=
        if |req.totalAmount - calculatedTotal| > calculatedTotal * (1 / 10)
        then calculatedTotal else req.totalAmount
      let record := bookingInsertData req bookingId availableRoom
        actualRoomType utcNow
      let row := bookingRowOfInsert req bookingId availableRoom
        actualRoomType utcNow
      ⟨.ok bookingId availableRoom totalAmount, some record,
        { db with bookings := db.bookings ++ [row] }⟩

/-!
## Billing creation (billing.py `create_billing_for_booking`, lines 61–260)

Verifies the booking is pending and not cancelled and has no billing yet,
computes the amounts from the latest billing settings, inserts the billing
row, marks the booking confirmed, and calls
`update_room_status_after_payment`, which sets the room `Occupied` exactly
when the booking's check-in equals PKT-today and otherwise leaves the
rooms table untouched (lines 34–55).
-/

/-- `BillingCreateRequest` as consumed by the route (the model class is
referenced but its declaration is absent from the sources; these are the
three fields the route reads). -/
structure BillingCreateRequest where
  bookingId : String
  paymentMethod : String
  paymentStatus : String
  deriving DecidableEq, Repr

/-- Billing settings row (`billing_settings`, latest), as percentages. -/
structure BillingSettings where
  discount : ℚ
  vat : ℚ
  deriving DecidableEq, Repr

/-- `update_room_status_after_payment` (billing.py 34–55). -/
def update_room_status_after_payment (rooms : List RoomRow) (rn : String)
    (checkInDate pktToday : Int) : List RoomRow :=
  if checkInDate = pktToday then
    rooms.map (fun r =>
      if r.roomNumber = rn then { r with status := "Occupied" } else r)
  else rooms

/-- Result of the billing-creation route. -/
inductive BillingResult where
  | err (statusCode : Int) (detail : String)
  | ok (totalAmount : ℚ)
  deriving DecidableEq, Repr

/-- Outcome of `create_billing_for_booking`. -/
structure BillingOutcome where
  result : BillingResult
  db : DB
  deriving Repr

/-- `create_billing_for_booking` (billing.py 61–260), fetches succeeding;
`utcNow` is the wall clock used for PKT-today. -/
def create_billing_for_booking (db : DB) (settings : BillingSettings)
    (req : BillingCreateRequest) (utcNow : Int) : BillingOutcome :=
  match bookingsById db.bookings req.bookingId with
  | [] => ⟨.err 404 "Booking not found", db⟩
  | b :: _ =>
    if b.status ≠ "pending" then
      ⟨.err 400 "Cannot create billing for booking with this status", db⟩
    else if b.isCancelled then
      ⟨.err 400 "Cannot create billing for cancelled booking", db⟩
    else
      match billingById db.billing req.bookingId with
      | _ :: _ => ⟨.err 400 "Billing already exists for this booking", db⟩
      | [] =>
        match roomTypesByName db.roomTypes b.roomType with
        | [] => ⟨.err 404 "Room type not found", db⟩
        | rt :: _ =>
          let total := billingTotal rt.basePrice b.checkIn b.checkOut
            settings.discount settings.vat
          let billRow : BillingRow :=
            { bookingId := req.bookingId
              roomPrice := rt.basePrice
              discount := settings.discount
              vat := settings.vat
              totalAmount := total
              paymentMethod := req.paymentMethod
              paymentStatus := req.paymentStatus
              isCancelled := false }
          let bookings1 := db.bookings.map (fun x =>
            if x.bookingId = req.bookingId then { x with status := "confirmed" }
            else x)
          let rooms1 := update_room_status_after_payment db.rooms b.roomNumber
            b.checkIn (get_pkt_today utcNow)
          ⟨.ok total,
            { db with billing := db.billing ++ [billRow],
                      bookings := bookings1, rooms := rooms1 }⟩

/-!
## Manual cancellation (bookings.py `cancel_booking`, lines 979–1036)

Marks the booking cancelled and its billing cancelled, then fetches the
room's other non-cancelled bookings whose check-in is on or after the
cancelled booking's check-in: if none remain the room is set `Available`,
otherwise the rooms table is **left unchanged** (the route never writes
`Booked` or `Occupied`).
-/

/-- Result of the cancellation route. -/
inductive CancelResult where
  | notFound
  | ok
  deriving DecidableEq, Repr

/-- Outcome of `cancel_booking`. -/
structure CancelOutcome where
  result : CancelResult
  db : DB
  deriving Repr

/-- bookings.py `cancel_booking`. -/
def cancel_booking (db : DB) (bid : String) : CancelOutcome :=
  match bookingsById db.bookings bid with
  | [] => ⟨.notFound, db⟩
  | b :: _ =>
    let bookings1 := db.bookings.map (fun x =>
      if x.bookingId = bid then
        { x with status := "cancelled", isCancelled := true }
      else x)
    let billing1 := db.billing.map (fun x =>
      if x.bookingId = bid then { x with isCancelled := true } else x)
    let otherFuture := bookings1.filter (fun x =>
      x.roomNumber = b.roomNumber ∧ x.bookingId ≠ bid ∧
      x.isCancelled = false ∧ x.checkIn ≥ b.checkIn)
    let rooms1 :=
      if otherFuture.length = 0 then
        db.rooms.map (fun r =>
          if r.roomNumber = b.roomNumber then { r with status := "Available" }
          else r)
      else db.rooms
    ⟨.ok, { db with bookings := bookings1, billing := billing1,
                    rooms := rooms1 }⟩

/-!
## Cleanup sweeper (notifications.py `call_edge_function_for_cleanup`,
lines 28–133, batch mode `booking_id=None`)

Selects the pending, non-cancelled bookings created at or before the
cutoff, then for each: skips it when its billing is already paid,
otherwise cancels it, cancels its billing when one exists, recomputes the
room status from the room's remaining non-cancelled bookings (`Occupied` /
`Booked` / `Available`, first match wins, using the server's `date.today()`),
and writes it.
-/

/-- The room-status recompute loop of the sweeper (lines 99–112):
initialised `Available`, first matching other-booking breaks. -/
def sweepRoomStatus (today : Int) : List BookingRow → String
  | [] => "Available"
  | x :: rest =>
    if x.checkIn = today ∧ (x.status = "confirmed" ∨ x.status = "pending") then
      if x.status = "confirmed" then "Occupied" else "Booked"
    else if x.checkIn > today ∧ (x.status = "confirmed" ∨ x.status = "pending")
    then "Booked"
    else sweepRoomStatus today rest

/-- The paid-billing skip test (line 77): billing row exists and its
payment status is `Paid` or `paid`. -/
def sweepPaidSkip (billing : List BillingRow) (bid : String) : Bool :=
  match billingById billing bid with
  | [] => false
  | x :: _ => x.paymentStatus = "Paid" ∨ x.paymentStatus = "paid"

/-- Processing of one selected booking inside the sweep loop
(lines 68–124). -/
def sweepProcessOne (today : Int) (db : DB) (b : BookingRow) : DB :=
  let billingCheck := billingById db.billing b.bookingId
  if sweepPaidSkip db.billing b.bookingId then db
  else
    let bookings1 := db.bookings.map (fun x =>
      if x.bookingId = b.bookingId then
        { x with status := "cancelled", isCancelled := true }
      else x)
    let billing1 :=
      match billingCheck with
      | [] => db.billing
      | _ :: _ => db.billing.map (fun x =>
          if x.bookingId = b.bookingId then { x with isCancelled := true }
          else x)
    let others := bookings1.filter (fun x =>
      x.roomNumber = b.roomNumber ∧ x.bookingId ≠ b.bookingId ∧
      x.isCancelled = false)
    let newStatus := sweepRoomStatus today others
    let rooms1 := db.rooms.map (fun r =>
      if r.roomNumber = b.roomNumber then { r with status := newStatus }
      else r)
    { db with bookings := bookings1, billing := billing1, rooms := rooms1 }

/-- The sweep's selection query (line 57): pending, non-cancelled,
created at or before the cutoff. -/
def sweepEligible (db : DB) (cutoff : Int) : List BookingRow :=
  db.bookings.filter (fun b =>
    b.status = "pending" ∧ b.isCancelled = false ∧ b.createdAt ≤ cutoff)

/-- `call_edge_function_for_cleanup` in batch mode: one selection, then a
sequential pass over the selected bookings. -/
def call_edge_function_for_cleanup (db : DB) (cutoff today : Int) : DB :=
  (sweepEligible db cutoff).foldl (sweepProcessOne today) db

/-!
# Theorems
-/

/-- C1: for well-formed half-open date ranges (start strictly before end),
the overlap test of the availability checks returns true iff
`targetStart < existingEnd` and `targetEnd > existingStart`; it is
symmetric in the two ranges, and adjacent ranges (one ending the exact day
the other begins) do not overlap. -/
theorem overlap_test_characterization (ts te es ee : Int)
    (hT : ts < te) (hE : es < ee) :
    (overlaps ts te es ee = true ↔ (ts < ee ∧ te > es)) ∧
    overlaps ts te es ee = overlaps es ee ts te ∧
    (te = es → overlaps ts te es ee = false) ∧
    (ee = ts → overlaps ts te es ee = false) := by
  refine ⟨by simp [overlaps], ?_, ?_, ?_⟩
  · simp only [overlaps, gt_iff_lt]
    exact Bool.and_comm _ _
  · intro h
    subst h
    simp [overlaps]
  · intro h
    subst h
    simp [overlaps]

/-- Witness for C1 at a concrete adjacent pair: the ranges [0,2) and
[2,4) are well-formed and do not overlap. -/
theorem overlap_test_characterization_witness :
    overlaps 0 2 2 4 = false :=
  (overlap_test_characterization 0 2 2 4 (by decide) (by decide)).2.2.1 rfl

/-- C7: in both billing writers, nights equals `max 1 (checkout - checkin)`
for any non-reversed range (a same-day range bills one night), the total
follows the spec formula `base - discount + vat`, and the scenario
rate 5000, 2 nights, 10% discount, 13% VAT totals 10170. -/
theorem billing_total_formula (cin cout : Int) (h : cin ≤ cout)
    (rate dp vp : ℚ) :
    billingNights cin cout = max 1 (cout - cin) ∧
    recordNights cin cout = max 1 (cout - cin) ∧
    (cin = cout → billingNights cin cout = 1) ∧
    billingTotal rate cin cout dp vp = specComputeTotal rate cin cout dp vp ∧
    recordTotal rate cin cout dp vp = specComputeTotal rate cin cout dp vp ∧
    billingAmounts 5000 2 10 13 = 10170 := by
  have hnights : billingNights cin cout = max 1 (cout - cin) := by
    unfold billingNights pyOrInt
    split
    · omega
    · omega
  have hrec : recordNights cin cout = max 1 (cout - cin) := rfl
  refine ⟨hnights, hrec, ?_, ?_, ?_, ?_⟩
  · intro hsame
    rw [hnights]
    omega
  · unfold billingTotal specComputeTotal billingAmounts
    rw [hnights]
  · unfold recordTotal specComputeTotal billingAmounts recordNights
    rfl
  · unfold billingAmounts
    norm_num

/-- Witness for C7 at the same-day range [5,5] and the spec's scenario
numbers. -/
theorem billing_total_formula_witness :
    billingNights 5 5 = 1 ∧ billingAmounts 5000 2 10 13 = 10170 :=
  ⟨(billing_total_formula 5 5 (by decide) 5000 10 13).2.2.1 rfl,
   (billing_total_formula 5 5 (by decide) 5000 10 13).2.2.2.2.2⟩

/-- A one-room inventory whose only room is under Maintenance and has no
bookings at all. -/
def maintDb : DB :=
  { rooms := [{ roomNumber := "101", roomType := "Deluxe", roomTypeId := 1,
                status := "Maintenance" }]
    roomTypes := [{ id := 1, name := "Deluxe", basePrice := 5000,
                    maxAdults := some 2, maxChildren := some 1 }]
    bookings := []
    billing := [] }

/-- C3 (code bug): `get_available_rooms_for_type_id` — the room-set
availability used by the booking-creation routes — returns the Maintenance
room `101` as available (it never filters or reads room status), while the
availability_routes implementation of the same operation excludes it. -/
theorem maintenance_room_listed_available :
    (get_available_rooms_for_type_id maintDb Faults.ok 1 10 12).map
      (fun r => (r.roomNumber, r.status)) = [("101", "Maintenance")] ∧
    get_available_rooms_optimized maintDb Faults.ok 1 0 10 12 = [] :=
  ⟨rfl, rfl⟩

/-- A one-room inventory for a type whose capacity is 2 adults + 1 child. -/
def capacityDb : DB :=
  { rooms := [{ roomNumber := "101", roomType := "Deluxe", roomTypeId := 1,
                status := "Available" }]
    roomTypes := [{ id := 1, name := "Deluxe", basePrice := 5000,
                    maxAdults := some 2, maxChildren := some 1 }]
    bookings := []
    billing := [] }

/-- A customer booking request for 10 guests against that type. -/
def capacityReq : FrontendBookingRequest :=
  { roomTypeId := 1, userId := 7, guestName := "John Doe",
    guestEmail := "john@example.com", guestPhone := "123",
    checkIn := 10, checkOut := 12, totalAmount := 10000,
    specialRequests := "", status := "pending", guests := 10 }

/-- C8 (code bug): the capacity helper judges 10 guests over the type's
capacity of 3, yet `create_booking` accepts the request and inserts a
booking row with `guests = 10` — no booking-creation route ever calls the
capacity check. -/
theorem capacity_check_not_enforced :
    check_guest_capacity_by_name
      (some (roomTypesByName capacityDb.roomTypes "Deluxe")) 10 = false ∧
    (create_booking capacityDb capacityReq 0).result = .ok "BK001" "101" 10000 ∧
    (create_booking capacityDb capacityReq 0).db.bookings.map
      (fun b => (b.bookingId, b.guests)) = [("BK001", 10)] ∧
    (create_booking capacityDb capacityReq 0).insertedRecord ≠ none := by
  refine ⟨rfl, ?_, rfl, fun h => Option.noConfusion h⟩
  show CreateBookingResult.ok "BK001" "101" _ = _
  rw [if_neg]
  · norm_num [capacityReq, pyOrInt]
  · norm_num [capacityReq, pyOrInt]

/-- Helper for C2: the booking scan of availability_routes
`check_room_availability` reports unavailable as soon as some fetched
booking's range contains today. -/
theorem availScan_mem_today (today tin tout : Int) {l : List BookingRow}
    {b : BookingRow} (hb : b ∈ l) (h1 : b.checkIn ≤ today)
    (h2 : today < b.checkOut) :
    availScan today tin tout l = false := by
  induction l with
  | nil => cases hb
  | cons x rest ih =>
    simp only [availScan]
    rcases List.mem_cons.mp hb with hbx | hbr
    · subst hbx
      split
      · rfl
      · rw [if_pos ⟨h1, h2⟩]
    · split
      · rfl
      · split
        · rfl
        · exact ih hbr

/-- C2: the single-room availability check of availability_routes returns
not-free whenever the room's stored status is Maintenance, and whenever
some non-cancelled booking of the room contains PKT-today (UTC+5), whether
or not that booking overlaps the requested range. -/
theorem isRoomFree_blocks_maintenance_and_today (db : DB) (rn : String)
    (utcNow tin tout : Int) (_hrange : tin < tout) (room : RoomRow)
    (rest : List RoomRow)
    (hfetch : roomsByNumber db.rooms rn = room :: rest) :
    (room.status = "Maintenance" →
      availCheckRoomAvailability db Faults.ok rn utcNow tin tout = false) ∧
    (∀ b ∈ activeBookingsForRoom db.bookings rn,
      b.checkIn ≤ get_pkt_today utcNow → get_pkt_today utcNow < b.checkOut →
      availCheckRoomAvailability db Faults.ok rn utcNow tin tout = false) := by
  unfold availCheckRoomAvailability
  have hfe : fetch Faults.ok.roomsQ (roomsByNumber db.rooms rn) =
      some (room :: rest) := by
    rw [hfetch]; rfl
  rw [hfe]
  constructor
  · intro hm
    simp only [availCheckCore]
    rw [if_pos hm]
  · intro b hb h1 h2
    simp only [availCheckCore]
    by_cases hm : room.status = "Maintenance"
    · rw [if_pos hm]
    · rw [if_neg hm]
      have hbf : fetch Faults.ok.bookingsQ
          (activeBookingsForRoom db.bookings rn) =
          some (activeBookingsForRoom db.bookings rn) := rfl
      rw [hbf]
      exact availScan_mem_today _ _ _ hb h1 h2

/-- Inventory for the C2 witness: room 201 under Maintenance with no
bookings; room 202 Available but with a booking [-1, 1) containing
PKT-today = 0, far away from the requested range [100, 102). -/
def c2Db : DB :=
  { rooms := [{ roomNumber := "201", roomType := "Deluxe", roomTypeId := 1,
                status := "Maintenance" },
              { roomNumber := "202", roomType := "Deluxe", roomTypeId := 1,
                status := "Available" }]
    roomTypes := [{ id := 1, name := "Deluxe", basePrice := 5000,
                    maxAdults := some 2, maxChildren := some 1 }]
    bookings := [{ bookingId := "BK001", roomNumber := "202",
                   roomType := "Deluxe", checkIn := -1, checkOut := 1,
                   guests := 2, status := "confirmed", isCancelled := false,
                   createdAt := 0 }]
    billing := [] }

/-- Witness for C2: both the Maintenance room and the today-occupied room
are reported not-free for the non-overlapping range [100, 102). -/
theorem isRoomFree_blocks_maintenance_and_today_witness :
    availCheckRoomAvailability c2Db Faults.ok "201" 0 100 102 = false ∧
    availCheckRoomAvailability c2Db Faults.ok "202" 0 100 102 = false := by
  constructor
  · exact (isRoomFree_blocks_maintenance_and_today c2Db "201" 0 100 102
      (by decide) _ _ rfl).1 rfl
  · exact (isRoomFree_blocks_maintenance_and_today c2Db "202" 0 100 102
      (by decide) _ _ rfl).2
      { bookingId := "BK001", roomNumber := "202", roomType := "Deluxe",
        checkIn := -1, checkOut := 1, guests := 2, status := "confirmed",
        isCancelled := false, createdAt := 0 }
      (by decide) (by decide) (by decide)

/-- Helper for C4: the single-room core check is false whenever the
bookings fetch raised. -/
theorem availCheckCore_bookings_fail (rr : Option (List RoomRow))
    (today tin tout : Int) :
    availCheckCore rr none today tin tout = false := by
  match rr with
  | none => rfl
  | some [] => rfl
  | some (room :: rest) =>
    simp only [availCheckCore]
    split <;> rfl

/-- C4: every availability check fails closed — with a raising rooms,
room-types or bookings fetch, the single-room checks report not-free and
the room-set checks report the empty list, for every database state and
every setting of the remaining fault flags. -/
theorem availability_checks_fail_closed (db : DB) (f : Faults) (rn : String)
    (tid utcNow tin tout : Int) :
    availCheckRoomAvailability db { f with roomsQ := true } rn utcNow tin tout
      = false ∧
    availCheckRoomAvailability db { f with bookingsQ := true } rn utcNow tin
      tout = false ∧
    bkCheckRoomAvailability db { f with bookingsQ := true } rn tin tout
      = false ∧
    get_available_rooms_optimized db { f with roomTypesQ := true } tid utcNow
      tin tout = [] ∧
    get_available_rooms_optimized db { f with roomsQ := true } tid utcNow tin
      tout = [] ∧
    get_available_rooms_optimized db { f with bookingsQ := true } tid utcNow
      tin tout = [] ∧
    get_available_rooms_for_type_id db { f with roomTypesQ := true } tid tin
      tout = [] ∧
    get_available_rooms_for_type_id db { f with roomsQ := true } tid tin tout
      = [] ∧
    get_available_rooms_for_type_id db { f with bookingsQ := true } tid tin
      tout = [] := by
  obtain ⟨fr, ft, fb, fbl⟩ := f
  refine ⟨rfl, ?_, rfl, rfl, ?_, ?_, rfl, ?_, ?_⟩
  · unfold availCheckRoomAvailability
    exact availCheckCore_bookings_fail _ _ _ _
  · unfold get_available_rooms_optimized availRoomsCore fetch
    cases ft
    · simp only [Bool.false_eq_true, if_false, if_true]
      match roomTypesById db.roomTypes tid with
      | [] => rfl
      | rt :: rts => rfl
    · rfl
  · unfold get_available_rooms_optimized availRoomsCore fetch
    cases ft
    · simp only [Bool.false_eq_true, if_false, if_true]
      match roomTypesById db.roomTypes tid with
      | [] => rfl
      | rt :: rts =>
        simp only
        cases fr
        · simp only [Bool.false_eq_true, if_false, if_true]
          match roomsByTypeIdNoMaint db.rooms tid with
          | [] => rfl
          | room :: rooms => rfl
        · rfl
    · rfl
  · unfold get_available_rooms_for_type_id fetch
    cases ft
    · simp only [Bool.false_eq_true, if_false, if_true]
      match roomTypesById db.roomTypes tid with
      | [] => rfl
      | rt :: rts => rfl
    · rfl
  · unfold get_available_rooms_for_type_id fetch
    cases ft
    · simp only [Bool.false_eq_true, if_false, if_true]
      match roomTypesById db.roomTypes tid with
      | [] => rfl
      | rt :: rts =>
        simp only
        cases fr
        · simp only [Bool.false_eq_true, if_false, if_true]
          have hfalse : ∀ r : RoomRow,
              bkCheckRoomAvailability db ⟨false, false, true, fbl⟩ r.roomNumber
                tin tout = false := fun r => rfl
          simp [hfalse]
        · rfl
    · rfl

/-- C5: creating billing for a pending, non-cancelled booking succeeds
with the computed total and confirms the booking; the room is set
`Occupied` exactly when the booking's check-in equals PKT-today and the
rooms table is untouched otherwise; and the customer booking-creation
route never writes the rooms table at all, so a room booked for today
stays as it was (e.g. Available) until the billing record is created. -/
theorem billing_confirms_and_sets_room (db : DB) (settings : BillingSettings)
    (req : BillingCreateRequest) (utcNow : Int) (b : BookingRow)
    (rest : List BookingRow)
    (hb : bookingsById db.bookings req.bookingId = b :: rest)
    (hpend : b.status = "pending") (hnc : b.isCancelled = false)
    (hnobill : billingById db.billing req.bookingId = [])
    (rt : RoomTypeRow) (rts : List RoomTypeRow)
    (hrt : roomTypesByName db.roomTypes b.roomType = rt :: rts) :
    (create_billing_for_booking db settings req utcNow).result =
      .ok (billingTotal rt.basePrice b.checkIn b.checkOut settings.discount
        settings.vat) ∧
    (∀ x ∈ (create_billing_for_booking db settings req utcNow).db.bookings,
      x.bookingId = req.bookingId → x.status = "confirmed") ∧
    (∃ brow ∈ (create_billing_for_booking db settings req utcNow).db.billing,
      brow.bookingId = req.bookingId ∧
      brow.paymentStatus = req.paymentStatus) ∧
    (b.checkIn = get_pkt_today utcNow →
      (create_billing_for_booking db settings req utcNow).db.rooms =
        db.rooms.map (fun r => if r.roomNumber = b.roomNumber then
          { r with status := "Occupied" } else r)) ∧
    (b.checkIn ≠ get_pkt_today utcNow →
      (create_billing_for_booking db settings req utcNow).db.rooms =
        db.rooms) ∧
    (∀ (db2 : DB) (req2 : FrontendBookingRequest) (now2 : Int),
      (create_booking db2 req2 now2).db.rooms = db2.rooms) := by
  have key : create_billing_for_booking db settings req utcNow =
      ⟨.ok (billingTotal rt.basePrice b.checkIn b.checkOut settings.discount
          settings.vat),
        { db with
          billing := db.billing ++
            [{ bookingId := req.bookingId, roomPrice := rt.basePrice,
               discount := settings.discount, vat := settings.vat,
               totalAmount := billingTotal rt.basePrice b.checkIn b.checkOut
                 settings.discount settings.vat,
               paymentMethod := req.paymentMethod,
               paymentStatus := req.paymentStatus, isCancelled := false }],
          bookings := db.bookings.map (fun x =>
            if x.bookingId = req.bookingId then { x with status := "confirmed" }
            else x),
          rooms := update_room_status_after_payment db.rooms b.roomNumber
            b.checkIn (get_pkt_today utcNow) }⟩ := by
    unfold create_billing_for_booking
    rw [hb, hnobill]
    simp [hpend, hnc, hrt]
  refine ⟨?_, ?_, ?_, ?_, ?_, ?_⟩
  · rw [key]
  · rw [key]
    intro x hx hid
    obtain ⟨x0, hx0, hfx⟩ := List.mem_map.mp hx
    by_cases h0 : x0.bookingId = req.bookingId
    · rw [if_pos h0] at hfx
      rw [← hfx]
    · rw [if_neg h0] at hfx
      exact absurd (hfx ▸ hid) h0
  · rw [key]
    refine ⟨_, List.mem_append_right _ (List.mem_singleton_self _), rfl, rfl⟩
  · intro h
    rw [key]
    show update_room_status_after_payment db.rooms b.roomNumber b.checkIn
      (get_pkt_today utcNow) = _
    unfold update_room_status_after_payment
    rw [if_pos h]
  · intro h
    rw [key]
    show update_room_status_after_payment db.rooms b.roomNumber b.checkIn
      (get_pkt_today utcNow) = _
    unfold update_room_status_after_payment
    rw [if_neg h]
  · intro db2 req2 now2
    unfold create_booking
    split
    · rfl
    · split <;> rfl

/-- Inventory for the C5 witness: an Available room 101 with a pending
booking BK001 checking in on PKT-today (day 0) and no billing yet. -/
def c5Db : DB :=
  { rooms := [{ roomNumber := "101", roomType := "Deluxe", roomTypeId := 1,
                status := "Available" }]
    roomTypes := [{ id := 1, name := "Deluxe", basePrice := 5000,
                    maxAdults := some 2, maxChildren := some 1 }]
    bookings := [{ bookingId := "BK001", roomNumber := "101",
                   roomType := "Deluxe", checkIn := 0, checkOut := 2,
                   guests := 2, status := "pending", isCancelled := false,
                   createdAt := 0 }]
    billing := [] }

/-- Witness for C5: before billing the room is Available; creating a Paid
billing record for the today-check-in booking makes it Occupied and the
booking confirmed. -/
theorem billing_confirms_and_sets_room_witness :
    c5Db.rooms.map RoomRow.status = ["Available"] ∧
    (create_billing_for_booking c5Db ⟨0, 13⟩ ⟨"BK001", "Card", "Paid"⟩
      0).db.rooms.map RoomRow.status = ["Occupied"] ∧
    (create_billing_for_booking c5Db ⟨0, 13⟩ ⟨"BK001", "Card", "Paid"⟩
      0).db.bookings.map BookingRow.status = ["confirmed"] := by
  have h := billing_confirms_and_sets_room c5Db ⟨0, 13⟩
    ⟨"BK001", "Card", "Paid"⟩ 0
    { bookingId := "BK001", roomNumber := "101", roomType := "Deluxe",
      checkIn := 0, checkOut := 2, guests := 2, status := "pending",
      isCancelled := false, createdAt := 0 }
    [] rfl rfl rfl rfl
    { id := 1, name := "Deluxe", basePrice := 5000, maxAdults := some 2,
      maxChildren := some 1 } [] rfl
  refine ⟨rfl, ?_, by decide⟩
  rw [h.2.2.2.1 (by decide)]
  decide

/-- Inventory for C6: room 101 currently Occupied, its current confirmed
booking BK001 ([10,12)), and a remaining future pending booking BK002
([20,22)) on the same room. -/
def c6Db : DB :=
  { rooms := [{ roomNumber := "101", roomType := "Deluxe", roomTypeId := 1,
                status := "Occupied" }]
    roomTypes := [{ id := 1, name := "Deluxe", basePrice := 5000,
                    maxAdults := some 2, maxChildren := some 1 }]
    bookings := [{ bookingId := "BK001", roomNumber := "101",
                   roomType := "Deluxe", checkIn := 10, checkOut := 12,
                   guests := 2, status := "confirmed", isCancelled := false,
                   createdAt := 0 },
                 { bookingId := "BK002", roomNumber := "101",
                   roomType := "Deluxe", checkIn := 20, checkOut := 22,
                   guests := 2, status := "pending", isCancelled := false,
                   createdAt := 0 }]
    billing := [] }

/-- C6 counterexample: cancelling BK001 while the future reservation BK002
remains leaves the room's stored status `Occupied` — the manual
cancellation route never writes `Booked` as the claim asserts. -/
theorem cancel_leaves_room_status_counterexample :
    (cancel_booking c6Db "BK001").result = .ok ∧
    (cancel_booking c6Db "BK001").db.bookings.map
      (fun x => (x.bookingId, x.status, x.isCancelled)) =
      [("BK001", "cancelled", true), ("BK002", "pending", false)] ∧
    (cancel_booking c6Db "BK001").db.rooms.map RoomRow.status =
      ["Occupied"] ∧
    ¬ (cancel_booking c6Db "BK001").db.rooms.map RoomRow.status =
      ["Booked"] := by
  refine ⟨rfl, by decide, by decide, by decide⟩

/-- C6 as amended: cancellation marks the booking cancelled (status and
flag) and its billing cancelled, then sets the room `Available` when no
other non-cancelled booking for the room has a check-in on or after the
cancelled booking's check-in, and otherwise leaves the room's stored
status unchanged (it never writes `Booked` or `Occupied`). -/
theorem cancel_booking_room_recompute (db : DB) (bid : String)
    (b : BookingRow) (rest : List BookingRow)
    (hb : bookingsById db.bookings bid = b :: rest) :
    (cancel_booking db bid).result = .ok ∧
    (∀ x ∈ (cancel_booking db bid).db.bookings, x.bookingId = bid →
      x.status = "cancelled" ∧ x.isCancelled = true) ∧
    (∃ x ∈ (cancel_booking db bid).db.bookings, x.bookingId = bid) ∧
    (∀ x ∈ (cancel_booking db bid).db.billing, x.bookingId = bid →
      x.isCancelled = true) ∧
    ((cancel_booking db bid).db.bookings.filter (fun x =>
        x.roomNumber = b.roomNumber ∧ x.bookingId ≠ bid ∧
        x.isCancelled = false ∧ x.checkIn ≥ b.checkIn) = [] →
      (cancel_booking db bid).db.rooms = db.rooms.map (fun r =>
        if r.roomNumber = b.roomNumber then { r with status := "Available" }
        else r)) ∧
    ((cancel_booking db bid).db.bookings.filter (fun x =>
        x.roomNumber = b.roomNumber ∧ x.bookingId ≠ bid ∧
        x.isCancelled = false ∧ x.checkIn ≥ b.checkIn) ≠ [] →
      (cancel_booking db bid).db.rooms = db.rooms) := by
  have key : cancel_booking db bid =
      ⟨.ok,
        { db with
          bookings := db.bookings.map (fun x =>
            if x.bookingId = bid then
              { x with status := "cancelled", isCancelled := true }
            else x),
          billing := db.billing.map (fun x =>
            if x.bookingId = bid then { x with isCancelled := true } else x),
          rooms :=
            if ((db.bookings.map (fun x =>
                if x.bookingId = bid then
                  { x with status := "cancelled", isCancelled := true }
                else x)).filter (fun x =>
                x.roomNumber = b.roomNumber ∧ x.bookingId ≠ bid ∧
                x.isCancelled = false ∧ x.checkIn ≥ b.checkIn)).length = 0
            then db.rooms.map (fun r =>
              if r.roomNumber = b.roomNumber then
                { r with status := "Available" }
              else r)
            else db.rooms }⟩ := by
    unfold cancel_booking
    rw [hb]
  have hbookings : (cancel_booking db bid).db.bookings =
      db.bookings.map (fun x =>
        if x.bookingId = bid then
          { x with status := "cancelled", isCancelled := true }
        else x) := by rw [key]
  refine ⟨by rw [key], ?_, ?_, ?_, ?_, ?_⟩
  · intro x hx hid
    rw [hbookings] at hx
    obtain ⟨x0, hx0, hfx⟩ := List.mem_map.mp hx
    by_cases h0 : x0.bookingId = bid
    · rw [if_pos h0] at hfx
      rw [← hfx]
      exact ⟨rfl, rfl⟩
    · rw [if_neg h0] at hfx
      exact absurd (hfx ▸ hid) h0
  · have hmem : b ∈ db.bookings ∧ b.bookingId = bid := by
      have hm : b ∈ bookingsById db.bookings bid := by
        rw [hb]; exact List.mem_cons_self b rest
      have := List.mem_filter.mp hm
      exact ⟨this.1, by simpa using this.2⟩
    refine ⟨{ b with status := "cancelled", isCancelled := true },
      ?_, hmem.2⟩
    rw [hbookings]
    have := List.mem_map_of_mem (fun x =>
      if x.bookingId = bid then
        { x with status := "cancelled", isCancelled := true }
      else x) hmem.1
    simpa [hmem.2] using this
  · intro x hx hid
    have hbilling : (cancel_booking db bid).db.billing =
        db.billing.map (fun x =>
          if x.bookingId = bid then { x with isCancelled := true } else x) :=
      by rw [key]
    rw [hbilling] at hx
    obtain ⟨x0, hx0, hfx⟩ := List.mem_map.mp hx
    by_cases h0 : x0.bookingId = bid
    · rw [if_pos h0] at hfx
      rw [← hfx]
    · rw [if_neg h0] at hfx
      exact absurd (hfx ▸ hid) h0
  · intro hfil
    rw [hbookings] at hfil
    rw [key]
    show (if _ then _ else _) = _
    rw [if_pos (by rw [hfil]; rfl)]
  · intro hfil
    rw [hbookings] at hfil
    rw [key]
    show (if _ then _ else _) = _
    rw [if_neg (by
      intro hlen
      exact hfil (List.eq_nil_of_length_eq_zero hlen))]

/-- Inventory for the C6 witness: room 101 Booked with BK001 as its only
reservation. -/
def c6SoloDb : DB :=
  { rooms := [{ roomNumber := "101", roomType := "Deluxe", roomTypeId := 1,
                status := "Booked" }]
    roomTypes := [{ id := 1, name := "Deluxe", basePrice := 5000,
                    maxAdults := some 2, maxChildren := some 1 }]
    bookings := [{ bookingId := "BK001", roomNumber := "101",
                   roomType := "Deluxe", checkIn := 10, checkOut := 12,
                   guests := 2, status := "pending", isCancelled := false,
                   createdAt := 0 }]
    billing := [] }

/-- Witness for the amended C6: cancelling the room's only reservation
sets it Available; cancelling while BK002 remains (the counterexample
inventory) leaves the stored status as it was. -/
theorem cancel_booking_room_recompute_witness :
    (cancel_booking c6SoloDb "BK001").db.rooms.map RoomRow.status =
      ["Available"] ∧
    (cancel_booking c6Db "BK001").db.rooms = c6Db.rooms := by
  constructor
  · rw [(cancel_booking_room_recompute c6SoloDb "BK001"
      { bookingId := "BK001", roomNumber := "101", roomType := "Deluxe",
        checkIn := 10, checkOut := 12, guests := 2, status := "pending",
        isCancelled := false, createdAt := 0 } [] rfl).2.2.2.2.1 (by decide)]
    decide
  · exact (cancel_booking_room_recompute c6Db "BK001"
      { bookingId := "BK001", roomNumber := "101", roomType := "Deluxe",
        checkIn := 10, checkOut := 12, guests := 2, status := "confirmed",
        isCancelled := false, createdAt := 0 } [] rfl).2.2.2.2.2 (by decide)

/-- C10: in the customer booking-creation flow, when the client total
differs from nights × base price by more than 10% of the computed total,
the response silently carries the computed total, otherwise it echoes the
client's value; and the inserted booking row has no total-amount column
either way. -/
theorem client_total_validation_and_insert (db : DB)
    (req : FrontendBookingRequest) (utcNow : Int) (rt : RoomTypeRow)
    (rts : List RoomTypeRow)
    (hrt : roomTypesById db.roomTypes req.roomTypeId = rt :: rts)
    (sel : RoomRow) (others : List RoomRow)
    (hav : get_available_rooms_for_type_id db Faults.ok req.roomTypeId
      req.checkIn req.checkOut = sel :: others) :
    (|req.totalAmount -
        ((pyOrInt (req.checkOut - req.checkIn) 1 : Int) : ℚ) * rt.basePrice| >
        ((pyOrInt (req.checkOut - req.checkIn) 1 : Int) : ℚ) * rt.basePrice *
          (1 / 10) →
      (create_booking db req utcNow).result =
        .ok (generate_booking_id (lastBookingIdSuffix db.bookings))
          sel.roomNumber
          (((pyOrInt (req.checkOut - req.checkIn) 1 : Int) : ℚ) *
            rt.basePrice)) ∧
    (¬ (|req.totalAmount -
        ((pyOrInt (req.checkOut - req.checkIn) 1 : Int) : ℚ) * rt.basePrice| >
        ((pyOrInt (req.checkOut - req.checkIn) 1 : Int) : ℚ) * rt.basePrice *
          (1 / 10)) →
      (create_booking db req utcNow).result =
        .ok (generate_booking_id (lastBookingIdSuffix db.bookings))
          sel.roomNumber req.totalAmount) ∧
    (∀ rec, (create_booking db req utcNow).insertedRecord = some rec →
      "total_amount" ∉ rec.map Prod.fst) := by
  have key : create_booking db req utcNow =
      ⟨.ok (generate_booking_id (lastBookingIdSuffix db.bookings))
          sel.roomNumber
          (if |req.totalAmount -
              ((pyOrInt (req.checkOut - req.checkIn) 1 : Int) : ℚ) *
                rt.basePrice| >
              ((pyOrInt (req.checkOut - req.checkIn) 1 : Int) : ℚ) *
                rt.basePrice * (1 / 10)
            then ((pyOrInt (req.checkOut - req.checkIn) 1 : Int) : ℚ) *
              rt.basePrice
            else req.totalAmount),
        some (bookingInsertData req
          (generate_booking_id (lastBookingIdSuffix db.bookings))
          sel.roomNumber (pyOrStr sel.roomType rt.name) utcNow),
        { db with bookings := db.bookings ++
            [bookingRowOfInsert req
              (generate_booking_id (lastBookingIdSuffix db.bookings))
              sel.roomNumber (pyOrStr sel.roomType rt.name) utcNow] }⟩ := by
    unfold create_booking
    rw [hrt, hav]
  refine ⟨?_, ?_, ?_⟩
  · intro h
    rw [key]
    show CreateBookingResult.ok _ _ (if _ then _ else _) = _
    rw [if_pos h]
  · intro h
    rw [key]
    show CreateBookingResult.ok _ _ (if _ then _ else _) = _
    rw [if_neg h]
  · intro rec hrec
    rw [key] at hrec
    have hrec2 := Option.some.inj hrec
    rw [← hrec2]
    simp [bookingInsertData]

/-- Inventory for the C10 witness. -/
def c10Db : DB :=
  { rooms := [{ roomNumber := "101", roomType := "Deluxe", roomTypeId := 1,
                status := "Available" }]
    roomTypes := [{ id := 1, name := "Deluxe", basePrice := 5000,
                    maxAdults := some 2, maxChildren := some 1 }]
    bookings := []
    billing := [] }

/-- A customer request whose claimed total 20000 is double the computed
10000 (2 nights × 5000). -/
def c10Req : FrontendBookingRequest :=
  { roomTypeId := 1, userId := 7, guestName := "Jane Roe",
    guestEmail := "jane@example.com", guestPhone := "321",
    checkIn := 10, checkOut := 12, totalAmount := 20000,
    specialRequests := "", status := "pending", guests := 2 }

/-- Witness for C10: the response silently reports the computed 10000, and
the inserted row dict has no total-amount key. -/
theorem client_total_validation_and_insert_witness :
    (create_booking c10Db c10Req 0).result = .ok "BK001" "101" 10000 ∧
    "total_amount" ∉
      ((create_booking c10Db c10Req 0).insertedRecord.getD []).map
        Prod.fst := by
  have h := client_total_validation_and_insert c10Db c10Req 0
    { id := 1, name := "Deluxe", basePrice := 5000, maxAdults := some 2,
      maxChildren := some 1 } [] rfl
    { roomNumber := "101", roomType := "Deluxe", roomTypeId := 1,
      status := "Available" } [] rfl
  constructor
  · rw [h.1 (by norm_num [c10Req, pyOrInt])]
    norm_num [c10Req, pyOrInt]
    decide
  · exact h.2.2 _ rfl

/-- C9: run over a state whose only eligible expired, unbilled, pending
booking is `b`, the sweep cancels it (status and flag); the second run
selects nothing — the already-cancelled booking is skipped — and performs
no writes at all, returning the state unchanged. -/
theorem sweep_cancels_once_and_is_idempotent (db : DB) (cutoff today : Int)
    (b : BookingRow) (helig : sweepEligible db cutoff = [b])
    (hnopaid : sweepPaidSkip db.billing b.bookingId = false) :
    (∀ x ∈ (call_edge_function_for_cleanup db cutoff today).bookings,
      x.bookingId = b.bookingId →
        x.status = "cancelled" ∧ x.isCancelled = true) ∧
    (∃ x ∈ (call_edge_function_for_cleanup db cutoff today).bookings,
      x.bookingId = b.bookingId) ∧
    sweepEligible (call_edge_function_for_cleanup db cutoff today) cutoff
      = [] ∧
    call_edge_function_for_cleanup
      (call_edge_function_for_cleanup db cutoff today) cutoff today =
      call_edge_function_for_cleanup db cutoff today := by
  have hbmem : b ∈ db.bookings ∧ b.status = "pending" ∧
      b.isCancelled = false ∧ b.createdAt ≤ cutoff := by
    have hm : b ∈ sweepEligible db cutoff := by
      rw [helig]; exact List.mem_singleton_self b
    have := List.mem_filter.mp hm
    refine ⟨this.1, ?_⟩
    simpa using this.2
  have hrun : call_edge_function_for_cleanup db cutoff today =
      sweepProcessOne today db b := by
    unfold call_edge_function_for_cleanup
    rw [helig, List.foldl_cons, List.foldl_nil]
  have hbk : (sweepProcessOne today db b).bookings =
      db.bookings.map (fun x =>
        if x.bookingId = b.bookingId then
          { x with status := "cancelled", isCancelled := true }
        else x) := by
    unfold sweepProcessOne
    rw [hnopaid]
    simp
  have heligNil : sweepEligible (call_edge_function_for_cleanup db cutoff
      today) cutoff = [] := by
    unfold sweepEligible
    rw [hrun, hbk]
    refine List.filter_eq_nil_iff.mpr ?_
    intro a ha
    obtain ⟨x0, hx0, hfx⟩ := List.mem_map.mp ha
    by_cases h0 : x0.bookingId = b.bookingId
    · rw [if_pos h0] at hfx
      rw [← hfx]
      simp
    · rw [if_neg h0] at hfx
      subst hfx
      intro hpred
      have hpred2 : x0.status = "pending" ∧ x0.isCancelled = false ∧
          x0.createdAt ≤ cutoff := by simpa using hpred
      have hxelig : x0 ∈ sweepEligible db cutoff := by
        unfold sweepEligible
        refine List.mem_filter.mpr ⟨hx0, ?_⟩
        simpa using hpred2
      rw [helig] at hxelig
      exact h0 (by rw [List.mem_singleton.mp hxelig])
  refine ⟨?_, ?_, heligNil, ?_⟩
  · intro x hx hid
    rw [hrun, hbk] at hx
    obtain ⟨x0, hx0, hfx⟩ := List.mem_map.mp hx
    by_cases h0 : x0.bookingId = b.bookingId
    · rw [if_pos h0] at hfx
      rw [← hfx]
      exact ⟨rfl, rfl⟩
    · rw [if_neg h0] at hfx
      exact absurd (hfx ▸ hid) h0
  · refine ⟨{ b with status := "cancelled", isCancelled := true }, ?_, rfl⟩
    rw [hrun, hbk]
    have := List.mem_map_of_mem (fun x =>
      if x.bookingId = b.bookingId then
        { x with status := "cancelled", isCancelled := true }
      else x) hbmem.1
    simpa using this
  · rw [hrun] at heligNil ⊢
    unfold call_edge_function_for_cleanup
    rw [heligNil, List.foldl_nil]

/-- Inventory for the C9 witness: a single expired (created at 0, cutoff
10), unbilled, pending booking BK001 on the Booked room 101. -/
def c9Db : DB :=
  { rooms := [{ roomNumber := "101", roomType := "Deluxe", roomTypeId := 1,
                status := "Booked" }]
    roomTypes := [{ id := 1, name := "Deluxe", basePrice := 5000,
                    maxAdults := some 2, maxChildren := some 1 }]
    bookings := [{ bookingId := "BK001", roomNumber := "101",
                   roomType := "Deluxe", checkIn := 5, checkOut := 7,
                   guests := 2, status := "pending", isCancelled := false,
                   createdAt := 0 }]
    billing := [] }

/-- Witness for C9: after the first sweep the booking is cancelled and the
room freed; the second sweep selects nothing and changes nothing. -/
theorem sweep_cancels_once_and_is_idempotent_witness :
    (call_edge_function_for_cleanup c9Db 10 0).bookings.map
      (fun x => (x.bookingId, x.status, x.isCancelled)) =
      [("BK001", "cancelled", true)] ∧
    sweepEligible (call_edge_function_for_cleanup c9Db 10 0) 10 = [] ∧
    call_edge_function_for_cleanup (call_edge_function_for_cleanup c9Db 10 0)
      10 0 = call_edge_function_for_cleanup c9Db 10 0 := by
  have h := sweep_cancels_once_and_is_idempotent c9Db 10 0
    { bookingId := "BK001", roomNumber := "101", roomType := "Deluxe",
      checkIn := 5, checkOut := 7, guests := 2, status := "pending",
      isCancelled := false, createdAt := 0 } rfl rfl
  exact ⟨by decide, h.2.2.1, h.2.2.2⟩

end PineBlue
